import Mathlib

/-!
Verification development for the flexoplate-iq backend's domain core:
the plate-equivalency scorers (`find_equivalent_plates` in `main.py`,
`tool_find_equivalents` in `flexobrain_agent.py`, `suggest_equivalencies`
in `plate_data_importer.py`) and the exposure-time calculators
(`calculate_exposure` in `main.py`, `tool_calculate_exposure` in
`flexobrain_agent.py`).

Numeric values flowing through the Python code (DB decimals and Python
floats) are embedded as rationals `ℚ`; Python `int(x)` truncation and
`round(x)` banker's rounding are modelled explicitly.  SQL reads and the
HTTP layer are outside the core: the embedded functions receive the
already-materialised rows, exactly as the scoring/arithmetic code does.
-/

namespace Flexo

/-- Python truthiness of an optional numeric DB value: `None` and `0` are
falsy (`if source['thickness_mm'] and cand['thickness_mm']`). -/
def truthyQ : Option ℚ → Bool
  | none => false
  | some q => decide (q ≠ 0)

/-- Python `x or d` on an optional numeric value: `None` and `0` fall back
to the default (`plate.get('main_exposure_energy_min_mj_cm2') or 800`). -/
def pyOr : Option ℚ → ℚ → ℚ
  | none, d => d
  | some q, d => if q = 0 then d else q

/-- Python `int(x)`: truncation toward zero (`-⌊-q⌋` is the ceiling). -/
def pyInt (q : ℚ) : ℤ := if 0 ≤ q then ⌊q⌋ else -⌊-q⌋

/-- Python 3 `round(x)`: round half to even (banker's rounding). -/
def pyRound (q : ℚ) : ℤ :=
  let f := ⌊q⌋
  let r := q - f
  if r < 1/2 then f
  else if 1/2 < r then f + 1
  else if f % 2 = 0 then f else f + 1

/-- `(x or '')` on an optional string column.  The `.lower().strip()`
normalisation applied in `main.py` is assumed already applied to the
stored strings; the scorer only tests emptiness and equality, which the
normalisation preserves on normalised data. -/
def surfStr : Option String → String
  | none => ""
  | some s => s

/-! ### `main.py` — `find_equivalent_plates` candidate scoring -/

/-- The columns of one candidate row that the scoring loop of
`find_equivalent_plates` reads (`main.py` lines 404–500).  `id` stands for
the DB primary key, used only to tell candidates apart. -/
structure PlateRow where
  id : ℕ
  thickness_mm : Option ℚ
  hardness_shore : Option ℚ
  surface_type : Option String
  imaging_type : Option String
  deriving Repr, DecidableEq

/-- Thickness component of the `main.py` score (lines 408–421): banded
credit from the absolute difference; skipped when either value is falsy. -/
def thicknessPart (source cand : PlateRow) : ℤ × List String :=
  if truthyQ source.thickness_mm ∧ truthyQ cand.thickness_mm then
    let diff := |source.thickness_mm.getD 0 - cand.thickness_mm.getD 0|
    if diff ≤ 2/100 then (30, ["thickness: exact"])
    else if diff ≤ 5/100 then (25, ["thickness: close"])
    else if diff ≤ 10/100 then (15, ["thickness: acceptable"])
    else (5, ["thickness: different"])
  else (0, [])

/-- Hardness component (lines 423–441): banded credit, or a flat `+10`
"unknown" credit when either value is falsy. -/
def hardnessPart (source cand : PlateRow) : ℤ × List String :=
  if truthyQ source.hardness_shore ∧ truthyQ cand.hardness_shore then
    let diff := |source.hardness_shore.getD 0 - cand.hardness_shore.getD 0|
    if diff ≤ 1 then (25, ["hardness: exact"])
    else if diff ≤ 3 then (20, ["hardness: close"])
    else if diff ≤ 5 then (12, ["hardness: acceptable"])
    else if diff ≤ 8 then (5, ["hardness: different"])
    else (0, ["hardness: mismatch"])
  else (10, ["hardness: unknown"])

/-- Surface component (lines 443–455): `+25` match, `-10` mismatch,
`+10` when either normalised string is empty. -/
def surfacePart (source cand : PlateRow) : ℤ × List String :=
  let s := surfStr source.surface_type
  let c := surfStr cand.surface_type
  if ¬s.isEmpty ∧ ¬c.isEmpty then
    if s = c then (25, ["surface: match"])
    else (-10, ["surface: MISMATCH (" ++ s ++ " vs " ++ c ++ ")"])
  else (10, ["surface: unknown"])

/-- Imaging component (lines 457–469): `+20` match, `-5` mismatch,
`+8` when either normalised string is empty. -/
def imagingPart (source cand : PlateRow) : ℤ × List String :=
  let s := surfStr source.imaging_type
  let c := surfStr cand.imaging_type
  if ¬s.isEmpty ∧ ¬c.isEmpty then
    if s = c then (20, ["imaging: match"])
    else (-5, ["imaging: MISMATCH"])
  else (8, ["imaging: unknown"])

/-- Running total and note list of the scoring loop body, before clamping:
the four components in program order. -/
def rawScore (source cand : PlateRow) : ℤ × List String :=
  let t := thicknessPart source cand
  let h := hardnessPart source cand
  let s := surfacePart source cand
  let i := imagingPart source cand
  (t.1 + h.1 + s.1 + i.1, t.2 ++ h.2 ++ s.2 ++ i.2)

/-- `final_score = max(0, min(100, score))` (`main.py` line 471). -/
def finalScore (source cand : PlateRow) : ℤ :=
  max 0 (min 100 (rawScore source cand).1)

/-- Quality bucket (lines 473–480). -/
def matchQuality (s : ℤ) : String :=
  if 90 ≤ s then "Excellent"
  else if 75 ≤ s then "Good"
  else if 60 ≤ s then "Fair"
  else "Poor"

/-- One element of the `scored` list (lines 482–500), restricted to the
fields the rest of the function reads. -/
structure ScoredEntry where
  cand : PlateRow
  match_score : ℤ
  match_quality : String
  match_details : List String
  deriving Repr, DecidableEq

/-- Builds the `scored` entry for one candidate. -/
def scoreEntry (source cand : PlateRow) : ScoredEntry :=
  { cand := cand
    match_score := finalScore source cand
    match_quality := matchQuality (finalScore source cand)
    match_details := (rawScore source cand).2 }

/-! Python's `list.sort(key=..., reverse=True)` is a stable descending
sort; we embed it as a stable insertion sort on the integer key. -/

/-- Insert `x` (which precedes every element of the tail in arrival order)
into a descending-sorted list, before any element of equal or smaller key:
this reproduces the stability of CPython's sort with `reverse=True`. -/
def insertDescBy (key : α → ℤ) (x : α) : List α → List α
  | [] => [x]
  | y :: ys => if key y ≤ key x then x :: y :: ys else y :: insertDescBy key x ys

/-- Stable descending sort by an integer key. -/
def sortDescBy (key : α → ℤ) : List α → List α
  | [] => []
  | x :: xs => insertDescBy key x (sortDescBy key xs)

/-- Default of the `limit` query parameter of `/api/equivalency/find`
(`main.py` line 356: `limit: int = 20`). -/
def limitDefault : ℕ := 20

/-- The response fields of `find_equivalent_plates` that the core
computes (lines 502–518): `equivalents`, `total_candidates`,
`good_matches_count`. -/
structure FindResult where
  equivalents : List ScoredEntry
  total_candidates : ℕ
  good_matches_count : ℕ
  deriving Repr, DecidableEq

/-- The pure tail of `find_equivalent_plates` (`main.py` lines 403–518):
score every pool candidate, sort descending by `match_score` (stable),
keep scores `>= 50`, truncate to `limit`; `total_candidates` is the size
of the scored list before the `>= 50` filter. -/
def find_equivalent_plates (source : PlateRow) (pool : List PlateRow)
    (limit : ℕ) : FindResult :=
  let scored := pool.map (scoreEntry source)
  let sorted := sortDescBy (·.match_score) scored
  let good_matches := sorted.filter (fun e => 50 ≤ e.match_score)
  { equivalents := good_matches.take limit
    total_candidates := scored.length
    good_matches_count := good_matches.length }

/-! ### `flexobrain_agent.py` — `tool_find_equivalents` scoring -/

/-- The source-plate columns the agent's scoring reads
(`flexobrain_agent.py` lines 446–457, 493–496). -/
structure ToolSource where
  surface_type : Option String
  process_type : Option String
  deriving Repr, DecidableEq

/-- One candidate row of the agent's equivalency query (lines 467–488):
`thickness_diff`/`hardness_diff` are computed by SQL `ABS(...)`;
`hardness_diff` is `NULL` (here `none`) when either hardness is missing. -/
structure ToolRow where
  id : ℕ
  thickness_diff : ℚ
  hardness_diff : Option ℚ
  surface_type : Option String
  process_type : Option String
  deriving Repr, DecidableEq

/-- The unclamped weighted total of `tool_find_equivalents`
(lines 493–499), given the present hardness difference `hd`. -/
def toolTotalScore (src : ToolSource) (row : ToolRow) (hd : ℚ) : ℚ :=
  let thickness_score := max 0 (30 - row.thickness_diff * 200)
  let hardness_score := max 0 (25 - hd * 2)
  let surface_score : ℚ := if row.surface_type = src.surface_type then 20 else 5
  let process_score : ℚ := if row.process_type = src.process_type then 15 else 0
  let lpi_score : ℚ := 10
  min 100 (thickness_score + hardness_score + surface_score + process_score + lpi_score)

/-- The agent's quality bucket (line 510), computed on the unrounded
total. -/
def toolQuality (total : ℚ) : String :=
  if 90 ≤ total then "Excellent"
  else if 75 ≤ total then "Good"
  else if 60 ≤ total then "Fair"
  else "Poor"

/-- One entry of the agent's `equivalents` list, restricted to the
computed fields. -/
structure ToolEntry where
  row : ToolRow
  similarity_score : ℤ
  match_quality : String
  deriving Repr, DecidableEq

/-- The loop body building one `equivalents` entry (lines 491–511).  When
`hardness_diff` is SQL `NULL`, Python evaluates `None * 2` and raises a
`TypeError`, which the enclosing `try/except` turns into an error reply. -/
def toolEntry (src : ToolSource) (row : ToolRow) : Except String ToolEntry :=
  match row.hardness_diff with
  | none => .error "TypeError"
  | some hd =>
      .ok { row := row
            similarity_score := pyRound (toolTotalScore src row hd)
            match_quality := toolQuality (toolTotalScore src row hd) }

/-- The scoring loop and final `sorted(..., reverse=True)` of
`tool_find_equivalents` (lines 490–522): any raising row aborts the whole
call with an error reply. -/
def tool_find_equivalents (src : ToolSource) (rows : List ToolRow) :
    Except String (List ToolEntry) :=
  (rows.mapM (toolEntry src)).map (sortDescBy (·.similarity_score))

/-! ### `plate_data_importer.py` — `suggest_equivalencies` scoring -/

/-- Source-plate columns read by `suggest_equivalencies`
(`plate_data_importer.py` lines 622–628, 654–655). -/
structure ImporterSource where
  process_type : Option String
  surface_type : Option String
  deriving Repr, DecidableEq

/-- One candidate row (lines 634–647): both diffs come from SQL `ABS`,
with hardness `COALESCE`d to 0, so neither is ever `NULL`. -/
structure ImporterRow where
  id : ℕ
  thickness_diff : ℚ
  hardness_diff : ℚ
  process_type : Option String
  surface_type : Option String
  deriving Repr, DecidableEq

/-- The unclamped/clamped total of `suggest_equivalencies`
(lines 651–657).  Note `if row['hardness_diff']`: a zero difference is
falsy and takes the flat 15-point branch. -/
def importerScoreTotal (p : ImporterSource) (row : ImporterRow) : ℚ :=
  let thickness_score := max 0 (40 - row.thickness_diff * 300)
  let hardness_score : ℚ :=
    if row.hardness_diff ≠ 0 then max 0 (25 - row.hardness_diff * 2) else 15
  let process_score : ℚ := if row.process_type = p.process_type then 20 else 0
  let surface_score : ℚ := if row.surface_type = p.surface_type then 10 else 0
  min 100 (thickness_score + hardness_score + process_score + surface_score + 5)

/-- The `similarity_score` field (line 667): `round(score)`. -/
def importerSimilarity (p : ImporterSource) (row : ImporterRow) : ℤ :=
  pyRound (importerScoreTotal p row)

/-! ### `main.py` — `calculate_exposure` -/

/-- The energy columns `calculate_exposure` reads (`main.py`
lines 531–534). -/
structure ExpoPlate where
  main_min : Option ℚ
  main_max : Option ℚ
  back_min : Option ℚ
  back_max : Option ℚ
  deriving Repr, DecidableEq

/-- `main_energy`: midpoint of the main-exposure bounds, each replaced by
the hard-coded default (800 / 1200) when falsy (lines 531–536). -/
def mainMidEnergy (p : ExpoPlate) : ℚ :=
  (pyOr p.main_min 800 + pyOr p.main_max 1200) / 2

/-- `back_energy`: midpoint of the back-exposure bounds with defaults
150 / 250 (lines 533–537). -/
def backMidEnergy (p : ExpoPlate) : ℚ :=
  (pyOr p.back_min 150 + pyOr p.back_max 250) / 2

/-- `main_time_s` after `int(...)` truncation and the
`max(30, min(..., 1800))` clamp (lines 539, 542). -/
def mainExposureTime (p : ExpoPlate) (intensity : ℚ) : ℤ :=
  max 30 (min (pyInt (mainMidEnergy p / intensity)) 1800)

/-- `back_time_s` after truncation and the `max(10, min(..., 600))` clamp
(lines 540, 543). -/
def backExposureTime (p : ExpoPlate) (intensity : ℚ) : ℤ :=
  max 10 (min (pyInt (backMidEnergy p / intensity)) 600)

/-- The exposure arithmetic of `calculate_exposure` (lines 531–543):
Python raises an uncaught `ZeroDivisionError` when the intensity is zero;
otherwise it returns the clamped `(main_time_s, back_time_s)`. -/
def calculate_exposure (p : ExpoPlate) (intensity : ℚ) :
    Except String (ℤ × ℤ) :=
  if intensity = 0 then .error "ZeroDivisionError"
  else .ok (mainExposureTime p intensity, backExposureTime p intensity)

/-! ### `flexobrain_agent.py` — `tool_calculate_exposure` -/

/-- The energy columns the agent's calculator reads
(`flexobrain_agent.py` lines 594–604, 622–623). -/
structure ToolExpoRow where
  main_min : Option ℚ
  main_max : Option ℚ
  deriving Repr, DecidableEq

/-- `degradation_factor` (lines 614–617): linear lamp-age decay floored
at one half, only applied for a positive age. -/
def degradationFactor (lamp_age : ℚ) : ℚ :=
  if 0 < lamp_age then max (1/2) (1 - lamp_age / 10000) else 1

/-- `effective_intensity = intensity * degradation_factor` (line 619). -/
def effectiveIntensity (intensity lamp_age : ℚ) : ℚ :=
  intensity * degradationFactor lamp_age

/-- `target_energy`: midpoint of the main bounds with `or`-defaults
800 / 1200 (lines 622–624). -/
def toolTargetEnergy (row : ToolExpoRow) : ℚ :=
  (pyOr row.main_min 800 + pyOr row.main_max 1200) / 2

/-- The rounded `main_exposure.seconds` field (lines 627, 648). -/
def toolMainSeconds (row : ToolExpoRow) (intensity lamp_age : ℚ) : ℤ :=
  pyRound (toolTargetEnergy row / effectiveIntensity intensity lamp_age)

/-- The rounded `back_exposure.seconds` field: the back energy is
fabricated as 22% of the main target (lines 630–631, 653). -/
def toolBackSeconds (row : ToolExpoRow) (intensity lamp_age : ℚ) : ℤ :=
  pyRound (toolTargetEnergy row * (22/100) / effectiveIntensity intensity lamp_age)

/-- The computed exposure fields of the agent's reply. -/
structure ToolExposure where
  main_seconds : ℤ
  back_seconds : ℤ
  effective_intensity : ℚ
  degradation_factor : ℚ
  deriving Repr, DecidableEq

/-- The arithmetic of `tool_calculate_exposure` (lines 613–657): a zero
effective intensity raises `ZeroDivisionError`, caught by the enclosing
`try/except` and returned as an error reply. -/
def tool_calculate_exposure (row : ToolExpoRow) (intensity lamp_age : ℚ) :
    Except String ToolExposure :=
  if effectiveIntensity intensity lamp_age = 0 then .error "division by zero"
  else
    .ok { main_seconds := toolMainSeconds row intensity lamp_age
          back_seconds := toolBackSeconds row intensity lamp_age
          effective_intensity := effectiveIntensity intensity lamp_age
          degradation_factor := degradationFactor lamp_age }

/-! ### Helper lemmas on the Python rounding primitives -/

lemma le_pyRound {a : ℤ} {q : ℚ} (h : (a : ℚ) ≤ q) : a ≤ pyRound q := by
  have hf : a ≤ ⌊q⌋ := Int.le_floor.mpr h
  simp only [pyRound]
  split_ifs <;> omega

lemma pyRound_le {b : ℤ} {q : ℚ} (h : q ≤ (b : ℚ)) : pyRound q ≤ b := by
  have hfb : ⌊q⌋ ≤ b := by
    have h1 := Int.floor_le_floor h
    rwa [Int.floor_intCast] at h1
  simp only [pyRound]
  split_ifs with h1 h2 h3
  · exact hfb
  · have hlt : (⌊q⌋ : ℚ) < (b : ℚ) := by push_neg at h1; linarith
    have : ⌊q⌋ < b := by exact_mod_cast hlt
    omega
  · exact hfb
  · have hlt : (⌊q⌋ : ℚ) < (b : ℚ) := by push_neg at h1; linarith
    have : ⌊q⌋ < b := by exact_mod_cast hlt
    omega

lemma abs_pyRound_sub_le (q : ℚ) : |((pyRound q : ℤ) : ℚ) - q| ≤ 1/2 := by
  have h0 : (⌊q⌋ : ℚ) ≤ q := Int.floor_le q
  have h1 : q < ⌊q⌋ + 1 := Int.lt_floor_add_one q
  simp only [pyRound]
  split_ifs with hc hd he
  · rw [abs_le]
    constructor <;> linarith
  · push_neg at hc
    rw [abs_le]
    push_cast
    constructor <;> linarith
  · push_neg at hc hd
    have heq : q - ⌊q⌋ = 1/2 := le_antisymm hd hc
    rw [abs_le]
    constructor <;> linarith
  · push_neg at hc hd
    have heq : q - ⌊q⌋ = 1/2 := le_antisymm hd hc
    rw [abs_le]
    push_cast
    constructor <;> linarith

lemma pyInt_nonpos {q : ℚ} (h : q ≤ 0) : pyInt q ≤ 0 := by
  unfold pyInt
  split_ifs with h0
  · have h2 := Int.floor_le_floor h
    simpa using h2
  · have h3 : (0 : ℚ) ≤ -q := by linarith
    have h4 := Int.floor_le_floor h3
    simp only [Int.floor_zero] at h4
    omega

/-! ### Concrete example inputs used by witnesses and counterexamples -/

/-- A source plate: 1.14 mm, Shore 69, flat-top, digital. -/
def exSource : PlateRow := ⟨0, some (114/100), some 69, some "flat_top", some "digital"⟩

/-- A candidate identical to `exSource` in every scored attribute. -/
def exGood (i : ℕ) : PlateRow := ⟨i, some (114/100), some 69, some "flat_top", some "digital"⟩

/-- A weak candidate: thickness off by 0.12 mm, hardness off by 10,
different surface and imaging. -/
def exBad : PlateRow := ⟨12, some (126/100), some 79, some "round_top", some "analog"⟩

/-- A 12-candidate pool: eleven perfect matches, one weak one. -/
def exPool : List PlateRow :=
  [exGood 1, exGood 2, exGood 3, exGood 4, exGood 5, exGood 6, exGood 7,
   exGood 8, exGood 9, exGood 10, exGood 11, exBad]

/-- Agent source plate: flat-top, solvent. -/
def exToolSrc : ToolSource := ⟨some "flat_top", some "solvent"⟩

/-- Agent candidate identical to `exToolSrc` except for a thermal process
type (zero thickness and hardness differences). -/
def exToolRow : ToolRow := ⟨1, 0, some 0, some "flat_top", some "thermal"⟩

/-- Importer source plate: solvent, flat-top. -/
def exImpSrc : ImporterSource := ⟨some "solvent", some "flat_top"⟩

/-- Importer candidate identical to `exImpSrc` except for a thermal
process type. -/
def exImpRow : ImporterRow := ⟨1, 0, 0, some "thermal", some "flat_top"⟩

/-! ### Claim theorems: exposure calculators -/

/-- C7: for `lamp_age_hours > 0` the agent's calculator uses
`degradation_factor = max(0.5, 1 - lamp_age_hours/10000)` and
`effective_intensity = measured_intensity * degradation_factor`; with no
age given (`lamp_age_hours = 0`) the effective intensity is the measured
one; ages 10000 and 20000 both clamp the factor to `0.5`, and the factor
is never negative. -/
theorem C7_lamp_degradation :
    (∀ a : ℚ, 0 < a → degradationFactor a = max (1/2) (1 - a / 10000)) ∧
    (∀ i a : ℚ, effectiveIntensity i a = i * degradationFactor a) ∧
    (∀ i : ℚ, effectiveIntensity i 0 = i) ∧
    degradationFactor 10000 = 1/2 ∧
    degradationFactor 20000 = 1/2 ∧
    (∀ a : ℚ, 0 < degradationFactor a) := by
  refine ⟨fun a ha => by simp [degradationFactor, ha], fun i a => rfl,
    fun i => by simp [effectiveIntensity, degradationFactor], ?_, ?_, fun a => ?_⟩
  · rw [degradationFactor, if_pos (by norm_num)]
    norm_num
  · rw [degradationFactor, if_pos (by norm_num)]
    rw [max_eq_left (by norm_num)]
  · unfold degradationFactor
    split_ifs
    · exact lt_of_lt_of_le (by norm_num) (le_max_left _ _)
    · norm_num

/-- Witness for C7 at `lamp_age_hours = 5000`. -/
theorem C7_lamp_degradation_witness :
    degradationFactor 5000 = max (1/2) (1 - 5000 / 10000) :=
  C7_lamp_degradation.1 5000 (by norm_num)

/-- C4 counterexample: in `main.py`, for a plate that stores both
main-exposure bounds (800 and 1200 mJ/cm², midpoint 1000) and intensity
1000 mW/cm², the returned main exposure time is the clamp floor 30 s,
not the midpoint formula value `(800+1200)/2 / 1000 = 1` — so even with
both bounds present the returned time does not equal
`(min+max)/2 / intensity`. -/
theorem C4_midpoint_counterexample :
    calculate_exposure ⟨some 800, some 1200, none, none⟩ 1000 = .ok (30, 10) ∧
    mainMidEnergy ⟨some 800, some 1200, none, none⟩ / 1000 = 1 ∧
    ((800 : ℚ) + 1200) / 2 / 1000 = 1 ∧ (30 : ℤ) ≠ 1 := by
  refine ⟨?_, by norm_num [mainMidEnergy, pyOr], by norm_num, by decide⟩
  norm_num [calculate_exposure, mainExposureTime, backExposureTime,
    mainMidEnergy, backMidEnergy, pyOr, pyInt]

/-- C4 amended: the agent's main exposure time is the midpoint energy over
the effective intensity rounded to the nearest integer second (within one
half second of the exact quotient), while `main.py` truncates the quotient
and clamps it into [30, 1800]; for intensity 20 mW/cm² and energy range
[800, 1200] both return exactly 50 s. -/
theorem C4_main_exposure_midpoint :
    (∀ emin emax i a : ℚ, 0 < i → emin ≠ 0 → emax ≠ 0 →
      |((toolMainSeconds ⟨some emin, some emax⟩ i a : ℤ) : ℚ) -
        ((emin + emax) / 2) / effectiveIntensity i a| ≤ 1/2) ∧
    toolMainSeconds ⟨some 800, some 1200⟩ 20 0 = 50 ∧
    mainExposureTime ⟨some 800, some 1200, none, none⟩ 20 = 50 := by
  refine ⟨fun emin emax i a hi h1 h2 => ?_, ?_, ?_⟩
  · have he : toolMainSeconds ⟨some emin, some emax⟩ i a =
        pyRound (((emin + emax) / 2) / effectiveIntensity i a) := by
      simp [toolMainSeconds, toolTargetEnergy, pyOr, h1, h2]
    rw [he]
    exact abs_pyRound_sub_le _
  · norm_num [toolMainSeconds, toolTargetEnergy, pyOr, effectiveIntensity,
      degradationFactor, pyRound]
  · norm_num [mainExposureTime, mainMidEnergy, pyOr, pyInt]

/-- Witness for C4 amended at `emin = 800`, `emax = 1200`, intensity 20,
lamp age 0. -/
theorem C4_main_exposure_midpoint_witness :
    |((toolMainSeconds ⟨some 800, some 1200⟩ 20 0 : ℤ) : ℚ) -
      ((800 + 1200) / 2) / effectiveIntensity 20 0| ≤ 1/2 :=
  C4_main_exposure_midpoint.1 800 1200 20 0 (by norm_num) (by norm_num)
    (by norm_num)

/-- C5 counterexample: for a plate with every exposure-energy field
absent, `main.py`'s calculator returns concrete times (50 s, 10 s at
20 mW/cm²) computed from the hard-coded default energies 800/1200 and
150/250 mJ/cm² — not a null main/back sub-result. -/
theorem C5_null_counterexample :
    calculate_exposure ⟨none, none, none, none⟩ 20 = .ok (50, 10) := by
  norm_num [calculate_exposure, mainExposureTime, backExposureTime,
    mainMidEnergy, backMidEnergy, pyOr, pyInt]

/-- C5 amended: absent (or zero) energy fields never yield a null
sub-result; both calculators substitute the hard-coded defaults
(800/1200 mJ/cm² main and 150/250 mJ/cm² back in `main.py`; 800/1200 in
the agent, whose back energy is always fabricated as 22% of the main
target), so a plate with all energies absent behaves identically to one
storing exactly the default energies. -/
theorem C5_default_energy_substitution :
    (∀ i : ℚ, calculate_exposure ⟨none, none, none, none⟩ i =
      calculate_exposure ⟨some 800, some 1200, some 150, some 250⟩ i) ∧
    (∀ i a : ℚ, tool_calculate_exposure ⟨none, none⟩ i a =
      tool_calculate_exposure ⟨some 800, some 1200⟩ i a) := by
  refine ⟨fun i => ?_, fun i a => ?_⟩
  · norm_num [calculate_exposure, mainExposureTime, backExposureTime,
      mainMidEnergy, backMidEnergy, pyOr]
  · norm_num [tool_calculate_exposure, toolMainSeconds, toolBackSeconds,
      toolTargetEnergy, pyOr]

/-- C6 counterexample: at intensity −20 mW/cm² (so effective intensity
`≤ 0`) `main.py`'s calculator does not fail with any `InvalidInput`
error: it silently returns the clamp floors (30 s, 10 s). -/
theorem C6_invalid_input_counterexample :
    calculate_exposure ⟨none, none, none, none⟩ (-20) = .ok (30, 10) := by
  norm_num [calculate_exposure, mainExposureTime, backExposureTime,
    mainMidEnergy, backMidEnergy, pyOr, pyInt]

/-- C6 amended: neither calculator validates the intensity.  Intensity 0
surfaces as a raw `ZeroDivisionError` (unhandled in `main.py`; caught and
returned as a generic error string by the agent); a negative intensity
produces no error at all — `main.py` silently clamps the negative times
up to the floors (30 s, 10 s) and the agent propagates negative times
(−50 s at −20 mW/cm²). -/
theorem C6_no_invalid_input_validation :
    (∀ p : ExpoPlate, calculate_exposure p 0 = .error "ZeroDivisionError") ∧
    (∀ (r : ToolExpoRow) (a : ℚ),
      tool_calculate_exposure r 0 a = .error "division by zero") ∧
    (∀ i : ℚ, i < 0 →
      calculate_exposure ⟨none, none, none, none⟩ i = .ok (30, 10)) ∧
    (tool_calculate_exposure ⟨none, none⟩ (-20) 0).map (·.main_seconds) =
      .ok (-50) := by
  refine ⟨fun p => by simp [calculate_exposure], fun r a => ?_,
    fun i hi => ?_, ?_⟩
  · simp [tool_calculate_exposure, effectiveIntensity]
  · have hm : mainMidEnergy ⟨none, none, none, none⟩ = 1000 := by
      norm_num [mainMidEnergy, pyOr]
    have hb : backMidEnergy ⟨none, none, none, none⟩ = 200 := by
      norm_num [backMidEnergy, pyOr]
    have hmain : pyInt (mainMidEnergy ⟨none, none, none, none⟩ / i) ≤ 0 :=
      pyInt_nonpos (le_of_lt (by rw [hm]; exact div_neg_of_pos_of_neg (by norm_num) hi))
    have hback : pyInt (backMidEnergy ⟨none, none, none, none⟩ / i) ≤ 0 :=
      pyInt_nonpos (le_of_lt (by rw [hb]; exact div_neg_of_pos_of_neg (by norm_num) hi))
    have h1 : mainExposureTime ⟨none, none, none, none⟩ i = 30 := by
      rw [mainExposureTime, min_eq_left (by omega), max_eq_left (by omega)]
    have h2 : backExposureTime ⟨none, none, none, none⟩ i = 10 := by
      rw [backExposureTime, min_eq_left (by omega), max_eq_left (by omega)]
    rw [calculate_exposure, if_neg hi.ne, h1, h2]
  · norm_num [tool_calculate_exposure, effectiveIntensity, degradationFactor,
      toolMainSeconds, toolTargetEnergy, pyOr, pyRound, Except.map]

/-- Witness for C6 amended at intensity −5. -/
theorem C6_no_invalid_input_validation_witness :
    calculate_exposure ⟨none, none, none, none⟩ (-5) = .ok (30, 10) :=
  C6_no_invalid_input_validation.2.2.1 (-5) (by norm_num)

/-- C9: for every plate and every positive intensity, `main.py`'s
`calculate_exposure` succeeds and returns the truncated quotient
`int(mid_energy / intensity)` clamped into [30, 1800] for the main
exposure and into [10, 600] for the back exposure, so the returned times
always lie in those windows whatever the physical formula says. -/
theorem C9_exposure_times_clamped :
    ∀ (p : ExpoPlate) (i : ℚ), 0 < i →
      calculate_exposure p i = .ok (mainExposureTime p i, backExposureTime p i) ∧
      mainExposureTime p i = max 30 (min (pyInt (mainMidEnergy p / i)) 1800) ∧
      backExposureTime p i = max 10 (min (pyInt (backMidEnergy p / i)) 600) ∧
      30 ≤ mainExposureTime p i ∧ mainExposureTime p i ≤ 1800 ∧
      10 ≤ backExposureTime p i ∧ backExposureTime p i ≤ 600 := by
  intro p i hi
  exact ⟨by simp [calculate_exposure, hi.ne'], rfl, rfl,
    le_max_left 30 _, max_le (by norm_num) (min_le_right _ _),
    le_max_left 10 _, max_le (by norm_num) (min_le_right _ _)⟩

/-- Witness for C9 at the all-absent plate and intensity 20. -/
theorem C9_exposure_times_clamped_witness :
    calculate_exposure ⟨none, none, none, none⟩ 20 =
      .ok (mainExposureTime ⟨none, none, none, none⟩ 20,
        backExposureTime ⟨none, none, none, none⟩ 20) ∧
    mainExposureTime ⟨none, none, none, none⟩ 20 =
      max 30 (min (pyInt (mainMidEnergy ⟨none, none, none, none⟩ / 20)) 1800) ∧
    backExposureTime ⟨none, none, none, none⟩ 20 =
      max 10 (min (pyInt (backMidEnergy ⟨none, none, none, none⟩ / 20)) 600) ∧
    30 ≤ mainExposureTime ⟨none, none, none, none⟩ 20 ∧
    mainExposureTime ⟨none, none, none, none⟩ 20 ≤ 1800 ∧
    10 ≤ backExposureTime ⟨none, none, none, none⟩ 20 ∧
    backExposureTime ⟨none, none, none, none⟩ 20 ≤ 600 :=
  C9_exposure_times_clamped ⟨none, none, none, none⟩ 20 (by norm_num)

/-! ### Claim theorems: similarity scoring -/

lemma toolTotalScore_exToolRow : toolTotalScore exToolSrc exToolRow 0 = 85 := by
  norm_num +decide [toolTotalScore, exToolSrc, exToolRow]

lemma toolEntry_exToolRow : toolEntry exToolSrc exToolRow = .ok ⟨exToolRow, 85, "Good"⟩ := by
  have h0 : toolEntry exToolSrc exToolRow =
      .ok ⟨exToolRow, pyRound (toolTotalScore exToolSrc exToolRow 0),
        toolQuality (toolTotalScore exToolSrc exToolRow 0)⟩ := rfl
  rw [h0, toolTotalScore_exToolRow]
  norm_num [pyRound, toolQuality]

/-- C2: every similarity score returned by the three scoring routines is
an integer (the score types are `ℤ`) between 0 and 100 inclusive. -/
theorem C2_score_bounds :
    (∀ source cand : PlateRow,
      0 ≤ finalScore source cand ∧ finalScore source cand ≤ 100) ∧
    (∀ (src : ToolSource) (row : ToolRow) (e : ToolEntry),
      toolEntry src row = .ok e →
        0 ≤ e.similarity_score ∧ e.similarity_score ≤ 100) ∧
    (∀ (p : ImporterSource) (row : ImporterRow),
      0 ≤ importerSimilarity p row ∧ importerSimilarity p row ≤ 100) := by
  refine ⟨fun source cand => ⟨le_max_left 0 _,
      max_le (by norm_num) (min_le_left _ _)⟩, ?_, ?_⟩
  · intro src row e he
    unfold toolEntry at he
    cases hh : row.hardness_diff with
    | none => rw [hh] at he; exact absurd he (by simp)
    | some hd =>
      rw [hh] at he
      simp only [Except.ok.injEq] at he
      subst he
      have ht : (0:ℚ) ≤ max 0 (30 - row.thickness_diff * 200) := le_max_left _ _
      have h2 : (0:ℚ) ≤ max 0 (25 - hd * 2) := le_max_left _ _
      have hs : (5:ℚ) ≤ if row.surface_type = src.surface_type then 20 else 5 := by
        split <;> norm_num
      have hp : (0:ℚ) ≤ if row.process_type = src.process_type then 15 else 0 := by
        split <;> norm_num
      constructor
      · refine le_pyRound ?_
        simp only [toolTotalScore]
        push_cast
        exact le_min (by norm_num) (by linarith)
      · refine pyRound_le ?_
        simp only [toolTotalScore]
        push_cast
        exact min_le_left _ _
  · intro p row
    have ht : (0:ℚ) ≤ max 0 (40 - row.thickness_diff * 300) := le_max_left _ _
    have h2 : (0:ℚ) ≤
        if row.hardness_diff ≠ 0 then max 0 (25 - row.hardness_diff * 2) else 15 := by
      split
      · exact le_max_left _ _
      · norm_num
    have hp : (0:ℚ) ≤ if row.process_type = p.process_type then 20 else 0 := by
      split <;> norm_num
    have hs : (0:ℚ) ≤ if row.surface_type = p.surface_type then 10 else 0 := by
      split <;> norm_num
    constructor
    · refine le_pyRound ?_
      simp only [importerSimilarity, importerScoreTotal]
      push_cast
      exact le_min (by norm_num) (by linarith)
    · refine pyRound_le ?_
      simp only [importerSimilarity, importerScoreTotal]
      push_cast
      exact min_le_left _ _

/-- Witness for C2 on the agent scorer at a concrete row. -/
theorem C2_score_bounds_witness :
    0 ≤ (ToolEntry.mk exToolRow 85 "Good").similarity_score ∧
      (ToolEntry.mk exToolRow 85 "Good").similarity_score ≤ 100 :=
  C2_score_bounds.2.1 exToolSrc exToolRow ⟨exToolRow, 85, "Good"⟩ toolEntry_exToolRow

lemma importerSimilarity_exImpRow : importerSimilarity exImpSrc exImpRow = 70 := by
  have h : importerScoreTotal exImpSrc exImpRow = 70 := by
    norm_num +decide [importerScoreTotal, exImpSrc, exImpRow]
  rw [importerSimilarity, h]
  norm_num [pyRound]

/-- C1 counterexample: plates that differ only in `process_type` score 85
in the agent's scorer and 70 in the importer's — not 0.  (In `main.py`'s
scorer `process_type` is not among the fetched or scored columns at all,
see the amended theorem.) -/
theorem C1_process_zero_counterexample :
    toolEntry exToolSrc exToolRow = .ok ⟨exToolRow, 85, "Good"⟩ ∧
    exToolRow.process_type ≠ exToolSrc.process_type ∧ (85 : ℤ) ≠ 0 ∧
    importerSimilarity exImpSrc exImpRow = 70 ∧
    exImpRow.process_type ≠ exImpSrc.process_type ∧ (70 : ℤ) ≠ 0 :=
  ⟨toolEntry_exToolRow, by decide, by decide,
   importerSimilarity_exImpRow, by decide, by decide⟩

/-- C1 amended: a differing `process_type` only zeroes that one scored
component (worth 15 of the agent's weights and 20 of the importer's), so
with the SQL-guaranteed non-negative thickness/hardness differences the
score is capped at 85 (agent) resp. 80 (importer) instead of being forced
to 0; `main.py`'s `find_equivalent_plates` never reads `process_type`, and
scores two plates with identical thickness/hardness/surface/imaging at
100 whatever their process types are. -/
theorem C1_process_type_not_disqualifying :
    (∀ (src : ToolSource) (row : ToolRow) (hd : ℚ),
      0 ≤ row.thickness_diff → 0 ≤ hd →
      row.process_type ≠ src.process_type →
      pyRound (toolTotalScore src row hd) ≤ 85) ∧
    (∀ (p : ImporterSource) (row : ImporterRow),
      0 ≤ row.thickness_diff → 0 ≤ row.hardness_diff →
      row.process_type ≠ p.process_type →
      importerSimilarity p row ≤ 80) ∧
    finalScore exSource (exGood 1) = 100 := by
  refine ⟨fun src row hd htd hhd hp => ?_, fun p row htd hhd hp => ?_, ?_⟩
  · refine pyRound_le ?_
    have h1 : max 0 (30 - row.thickness_diff * 200) ≤ (30:ℚ) := by
      have := mul_nonneg htd (by norm_num : (0:ℚ) ≤ 200)
      exact max_le (by norm_num) (by linarith)
    have h2 : max 0 (25 - hd * 2) ≤ (25:ℚ) := by
      have := mul_nonneg hhd (by norm_num : (0:ℚ) ≤ 2)
      exact max_le (by norm_num) (by linarith)
    have h3 : (if row.surface_type = src.surface_type then (20:ℚ) else 5) ≤ 20 := by
      split <;> norm_num
    simp only [toolTotalScore, if_neg hp]
    push_cast
    exact le_trans (min_le_right _ _) (by linarith)
  · refine pyRound_le ?_
    have h1 : max 0 (40 - row.thickness_diff * 300) ≤ (40:ℚ) := by
      have := mul_nonneg htd (by norm_num : (0:ℚ) ≤ 300)
      exact max_le (by norm_num) (by linarith)
    have h2 : (if row.hardness_diff ≠ 0 then max 0 (25 - row.hardness_diff * 2)
        else 15) ≤ (25:ℚ) := by
      split
      · have := mul_nonneg hhd (by norm_num : (0:ℚ) ≤ 2)
        exact max_le (by norm_num) (by linarith)
      · norm_num
    have h3 : (if row.surface_type = p.surface_type then (10:ℚ) else 0) ≤ 10 := by
      split <;> norm_num
    simp only [importerSimilarity, importerScoreTotal, if_neg hp]
    push_cast
    exact le_trans (min_le_right _ _) (by linarith)
  · norm_num +decide [finalScore, rawScore, thicknessPart, hardnessPart,
      surfacePart, imagingPart, truthyQ, surfStr, exSource, exGood]

/-- Witness for C1 amended at the concrete agent row with a thermal
candidate against a solvent source. -/
theorem C1_process_type_not_disqualifying_witness :
    pyRound (toolTotalScore exToolSrc exToolRow 0) ≤ 85 :=
  C1_process_type_not_disqualifying.1 exToolSrc exToolRow 0 (le_refl 0)
    (le_refl 0) (by decide)

/-! ### Properties of the stable descending sort -/

lemma insertDescBy_perm (key : α → ℤ) (x : α) (l : List α) :
    (insertDescBy key x l).Perm (x :: l) := by
  induction l with
  | nil => exact .refl _
  | cons y ys ih =>
    by_cases h : key y ≤ key x
    · rw [insertDescBy, if_pos h]
    · rw [insertDescBy, if_neg h]
      exact (ih.cons y).trans (List.Perm.swap x y ys)

lemma sortDescBy_perm (key : α → ℤ) (l : List α) :
    (sortDescBy key l).Perm l := by
  induction l with
  | nil => exact .refl _
  | cons x xs ih =>
    exact (insertDescBy_perm key x (sortDescBy key xs)).trans (ih.cons x)

lemma pairwise_insertDescBy (key : α → ℤ) (x : α) {l : List α}
    (hl : l.Pairwise (fun a b => key b ≤ key a)) :
    (insertDescBy key x l).Pairwise (fun a b => key b ≤ key a) := by
  induction l with
  | nil => simp [insertDescBy]
  | cons y ys ih =>
    rcases List.pairwise_cons.mp hl with ⟨hy, hys⟩
    by_cases h : key y ≤ key x
    · rw [insertDescBy, if_pos h]
      refine List.pairwise_cons.mpr ⟨?_, hl⟩
      intro z hz
      rcases List.mem_cons.mp hz with rfl | hz'
      · exact h
      · exact le_trans (hy z hz') h
    · rw [insertDescBy, if_neg h]
      refine List.pairwise_cons.mpr ⟨?_, ih hys⟩
      intro z hz
      rcases List.mem_cons.mp ((insertDescBy_perm key x ys).mem_iff.mp hz) with rfl | hz'
      · exact le_of_lt (not_le.mp h)
      · exact hy z hz'

lemma sortDescBy_sorted (key : α → ℤ) (l : List α) :
    (sortDescBy key l).Pairwise (fun a b => key b ≤ key a) := by
  induction l with
  | nil => exact .nil
  | cons x xs ih => exact pairwise_insertDescBy key x ih

lemma filter_key_insertDescBy (key : α → ℤ) (s : ℤ) (x : α) (l : List α) :
    (insertDescBy key x l).filter (fun a => key a == s) =
      ((x :: l).filter (fun a => key a == s)) := by
  induction l with
  | nil => rfl
  | cons y ys ih =>
    by_cases h : key y ≤ key x
    · rw [insertDescBy, if_pos h]
    · rw [insertDescBy, if_neg h]
      by_cases hx : key x = s
      · by_cases hy : key y = s
        · exact absurd (hx.trans hy.symm) (ne_of_lt (not_le.mp h))
        · simp [List.filter_cons, ih, hx, hy, beq_iff_eq]
      · by_cases hy : key y = s
        · simp [List.filter_cons, ih, hx, hy, beq_iff_eq]
        · simp [List.filter_cons, ih, hx, hy, beq_iff_eq]

lemma filter_key_sortDescBy (key : α → ℤ) (s : ℤ) (l : List α) :
    (sortDescBy key l).filter (fun a => key a == s) =
      l.filter (fun a => key a == s) := by
  induction l with
  | nil => rfl
  | cons x xs ih =>
    rw [sortDescBy, filter_key_insertDescBy]
    by_cases hx : key x = s <;> simp [List.filter_cons, ih, hx, beq_iff_eq]

/-! ### Concrete evaluation of `find_equivalent_plates` on `exPool` -/

/-- The scored entry produced for `exGood i`. -/
def exGoodEntry (i : ℕ) : ScoredEntry :=
  ⟨exGood i, 100, "Excellent",
   ["thickness: exact", "hardness: exact", "surface: match", "imaging: match"]⟩

/-- The scored entry produced for `exBad`. -/
def exBadEntry : ScoredEntry :=
  ⟨exBad, 0, "Poor",
   ["thickness: different", "hardness: mismatch",
    "surface: MISMATCH (flat_top vs round_top)", "imaging: MISMATCH"]⟩

lemma scoreEntry_exGood (i : ℕ) :
    scoreEntry exSource (exGood i) = exGoodEntry i := by
  norm_num +decide [scoreEntry, finalScore, matchQuality, rawScore,
    thicknessPart, hardnessPart, surfacePart, imagingPart, truthyQ, surfStr,
    exSource, exGood, exGoodEntry, abs_eq_max_neg]

lemma scoreEntry_exBad : scoreEntry exSource exBad = exBadEntry := by
  norm_num +decide [scoreEntry, finalScore, matchQuality, rawScore,
    thicknessPart, hardnessPart, surfacePart, imagingPart, truthyQ, surfStr,
    exSource, exBad, exBadEntry, abs_eq_max_neg]

lemma map_scoreEntry_exPool : exPool.map (scoreEntry exSource) =
    [exGoodEntry 1, exGoodEntry 2, exGoodEntry 3, exGoodEntry 4, exGoodEntry 5,
     exGoodEntry 6, exGoodEntry 7, exGoodEntry 8, exGoodEntry 9, exGoodEntry 10,
     exGoodEntry 11, exBadEntry] := by
  simp [exPool, scoreEntry_exGood, scoreEntry_exBad]

lemma sort_exPool :
    sortDescBy (fun e => e.match_score)
      [exGoodEntry 1, exGoodEntry 2, exGoodEntry 3, exGoodEntry 4, exGoodEntry 5,
       exGoodEntry 6, exGoodEntry 7, exGoodEntry 8, exGoodEntry 9, exGoodEntry 10,
       exGoodEntry 11, exBadEntry] =
    [exGoodEntry 1, exGoodEntry 2, exGoodEntry 3, exGoodEntry 4, exGoodEntry 5,
     exGoodEntry 6, exGoodEntry 7, exGoodEntry 8, exGoodEntry 9, exGoodEntry 10,
     exGoodEntry 11, exBadEntry] := by
  simp [sortDescBy, insertDescBy, exGoodEntry, exBadEntry]

lemma good_matches_exPool :
    ([exGoodEntry 1, exGoodEntry 2, exGoodEntry 3, exGoodEntry 4, exGoodEntry 5,
      exGoodEntry 6, exGoodEntry 7, exGoodEntry 8, exGoodEntry 9, exGoodEntry 10,
      exGoodEntry 11, exBadEntry].filter (fun e => 50 ≤ e.match_score)) =
    [exGoodEntry 1, exGoodEntry 2, exGoodEntry 3, exGoodEntry 4, exGoodEntry 5,
     exGoodEntry 6, exGoodEntry 7, exGoodEntry 8, exGoodEntry 9, exGoodEntry 10,
     exGoodEntry 11] := by
  simp [exGoodEntry, exBadEntry]

lemma equivalents_exPool :
    (find_equivalent_plates exSource exPool limitDefault).equivalents =
    [exGoodEntry 1, exGoodEntry 2, exGoodEntry 3, exGoodEntry 4, exGoodEntry 5,
     exGoodEntry 6, exGoodEntry 7, exGoodEntry 8, exGoodEntry 9, exGoodEntry 10,
     exGoodEntry 11] := by
  rw [show (find_equivalent_plates exSource exPool limitDefault).equivalents =
      ((sortDescBy (fun e => e.match_score)
        (exPool.map (scoreEntry exSource))).filter
          (fun e => 50 ≤ e.match_score)).take limitDefault from rfl,
    map_scoreEntry_exPool, sort_exPool, good_matches_exPool]
  exact List.take_of_length_le (by simp [limitDefault])

/-! ### Claim theorems: ranking, truncation, counting -/

/-- C3 counterexample: on a pool of 12 candidates of which 11 score 100
and one scores 0, a default call returns 11 entries — so the default
`top_n` is 20, not 10 — and reports `total_candidates = 12` although only
11 candidates pass the `>= 50` cut (`good_matches_count = 11`). -/
theorem C3_truncation_counterexample :
    (find_equivalent_plates exSource exPool limitDefault).equivalents.length = 11 ∧
    (find_equivalent_plates exSource exPool limitDefault).total_candidates = 12 ∧
    (find_equivalent_plates exSource exPool limitDefault).good_matches_count = 11 ∧
    ¬((find_equivalent_plates exSource exPool limitDefault).equivalents.length ≤ 10) := by
  have h1 : (find_equivalent_plates exSource exPool limitDefault).equivalents.length = 11 := by
    rw [equivalents_exPool]
    rfl
  have h2 : (find_equivalent_plates exSource exPool limitDefault).total_candidates = 12 := by
    rw [show (find_equivalent_plates exSource exPool limitDefault).total_candidates =
        (exPool.map (scoreEntry exSource)).length from rfl, map_scoreEntry_exPool]
    rfl
  have h3 : (find_equivalent_plates exSource exPool limitDefault).good_matches_count = 11 := by
    rw [show (find_equivalent_plates exSource exPool limitDefault).good_matches_count =
        ((sortDescBy (fun e => e.match_score)
          (exPool.map (scoreEntry exSource))).filter
            (fun e => 50 ≤ e.match_score)).length from rfl,
      map_scoreEntry_exPool, sort_exPool, good_matches_exPool]
    rfl
  exact ⟨h1, h2, h3, by omega⟩

/-- C3 amended: the equivalency finder scores the pool, sorts it
descending by `match_score` with a stable sort (ties keep pool order:
filtering the sorted list on any fixed score value returns those entries
in pool order), keeps only entries scoring at least 50, and truncates to
`limit`, whose default is 20 (not 10); `total_candidates` is the number of
scored pool candidates (not the number of passing ones). -/
theorem C3_sort_truncate_count :
    ∀ (source : PlateRow) (pool : List PlateRow) (limit : ℕ),
      (find_equivalent_plates source pool limit).equivalents =
        ((sortDescBy (fun e => e.match_score)
          (pool.map (scoreEntry source))).filter
            (fun e => 50 ≤ e.match_score)).take limit ∧
      (find_equivalent_plates source pool limit).equivalents.Pairwise
        (fun a b => b.match_score ≤ a.match_score) ∧
      (∀ s : ℤ, (sortDescBy (fun e => e.match_score)
          (pool.map (scoreEntry source))).filter (fun e => e.match_score == s) =
        (pool.map (scoreEntry source)).filter (fun e => e.match_score == s)) ∧
      (find_equivalent_plates source pool limit).equivalents.length ≤ limit ∧
      (find_equivalent_plates source pool limit).total_candidates =
        (pool.map (scoreEntry source)).length ∧
      limitDefault = 20 := by
  intro source pool limit
  refine ⟨rfl, ?_, fun s => filter_key_sortDescBy _ s _, ?_, rfl, rfl⟩
  · exact List.Pairwise.sublist
      ((List.take_sublist _ _).trans (List.filter_sublist _))
      (sortDescBy_sorted _ _)
  · rw [show (find_equivalent_plates source pool limit).equivalents =
        ((sortDescBy (fun e => e.match_score)
          (pool.map (scoreEntry source))).filter
            (fun e => 50 ≤ e.match_score)).take limit from rfl,
      List.length_take]
    exact min_le_left _ _

/-- C10: every returned equivalent has `match_score >= 50`, while
`total_candidates` counts all scored pool candidates including those
scoring below 50; on the concrete 12-candidate pool the reported total
(12) exceeds the number of entries any limit could ever return (11). -/
theorem C10_total_counts_all_scored :
    (∀ (source : PlateRow) (pool : List PlateRow) (limit : ℕ),
      (∀ e ∈ (find_equivalent_plates source pool limit).equivalents,
        50 ≤ e.match_score) ∧
      (find_equivalent_plates source pool limit).total_candidates = pool.length) ∧
    (∀ limit : ℕ,
      (find_equivalent_plates exSource exPool limit).equivalents.length ≤ 11) ∧
    (find_equivalent_plates exSource exPool limitDefault).total_candidates = 12 := by
  refine ⟨fun source pool limit => ⟨fun e he => ?_, ?_⟩, fun limit => ?_, ?_⟩
  · have he2 : e ∈ (sortDescBy (fun e => e.match_score)
        (pool.map (scoreEntry source))).filter (fun e => 50 ≤ e.match_score) :=
      List.mem_of_mem_take he
    simpa using List.of_mem_filter he2
  · rw [show (find_equivalent_plates source pool limit).total_candidates =
        (pool.map (scoreEntry source)).length from rfl, List.length_map]
  · rw [show (find_equivalent_plates exSource exPool limit).equivalents =
        ((sortDescBy (fun e => e.match_score)
          (exPool.map (scoreEntry exSource))).filter
            (fun e => 50 ≤ e.match_score)).take limit from rfl,
      map_scoreEntry_exPool, sort_exPool, good_matches_exPool, List.length_take]
    simp
  · rw [show (find_equivalent_plates exSource exPool limitDefault).total_candidates =
        (exPool.map (scoreEntry exSource)).length from rfl, map_scoreEntry_exPool]
    rfl

/-- Witness for C10: the first returned entry of the concrete pool indeed
scores at least 50. -/
theorem C10_total_counts_all_scored_witness :
    50 ≤ (exGoodEntry 1).match_score :=
  (C10_total_counts_all_scored.1 exSource exPool limitDefault).1 (exGoodEntry 1)
    (by rw [equivalents_exPool]; simp)

/-! ### Claim theorems: determinism -/

/-- C8: the embedded scorers and calculators are pure functions of their
inputs — the scoring loop of `find_equivalent_plates`, the agent's scoring
loop with its final sort, and both exposure computations return identical
results on identical inputs (in the shallow embedding this is definitional:
no state, randomness, or I/O occurs in the scored arithmetic). -/
theorem C8_deterministic :
    (∀ (source : PlateRow) (pool : List PlateRow) (limit : ℕ),
      find_equivalent_plates source pool limit =
        find_equivalent_plates source pool limit) ∧
    (∀ (src : ToolSource) (rows : List ToolRow),
      tool_find_equivalents src rows = tool_find_equivalents src rows) ∧
    (∀ (p : ExpoPlate) (i : ℚ), calculate_exposure p i = calculate_exposure p i) ∧
    (∀ (r : ToolExpoRow) (i a : ℚ),
      tool_calculate_exposure r i a = tool_calculate_exposure r i a) :=
  ⟨fun _ _ _ => rfl, fun _ _ => rfl, fun _ _ => rfl, fun _ _ _ => rfl⟩

end Flexo
